import Mathlib

/-!
Verification model of the `grab` request orchestrator in
`grab-url/src/grab-api.ts`.

The orchestrator is a single async function `grab(path, options)` operating
on process-wide mutable state (`grab.log`, `grab.defaults`, `grab.mock`).
We give a shallow embedding for the Node.js environment (`typeof window ===
"undefined"`), with JavaScript dynamic values modelled by the inductive
`JVal`, history-log entries modelled as JavaScript objects (ordered
association lists of fields), and the global state threaded explicitly
through `GrabState`.  The network transport (`fetch` plus body decoding) is
abstracted as a function `Nat → TransportOutcome` indexed by the number of
transport invocations made so far; its failure modes carry the exact error
messages the TypeScript code would throw.  Real time is a per-state clock
`now : Int` (milliseconds, JavaScript `Date.now()`); time does not advance
inside a single call, matching the cooperative single-threaded model.

Scope notes (features no claim depends on, deliberately out of the model):
browser-only branches guarded by `typeof window !== "undefined"` (regrab
listeners, infinite-scroll DOM wiring, devtools); the `response`-as-function
projection sink (containers are plain objects here); hook options
(`onRequest`/`onResponse`/`onError`/`onStream`) and `logger`/`debug`
logging, which only observe; mock handlers whose `response` is a function;
percent-encoding inside `URLSearchParams`.  Object identity (aliasing) is
replaced by value threading: the caller-supplied container value is passed
in and the final value passed out, which is observationally equivalent for
the sequential call patterns the claims quantify over.
-/

/-- JavaScript runtime values, as far as the orchestrator manipulates them.
`ctrl n` stands for an `AbortController` object with identity `n`
(controllers have no enumerable JSON fields, so they stringify to "\x7b\x7d").
`nan` is the JavaScript number `NaN` (arising here from
`undefined + 1` in the pagination page computation). -/
inductive JVal where
  | null
  | undef
  | nan
  | bool (b : Bool)
  | num (n : Int)
  | str (s : String)
  | arr (xs : List JVal)
  | obj (fields : List (String × JVal))
  | ctrl (id : Nat)

/-- A JavaScript object: fields in insertion order (keys unique in every
object the code constructs). -/
abbrev JObj := List (String × JVal)

/-- JavaScript truthiness. -/
def jsTruthy : JVal → Bool
  | JVal.null => false
  | JVal.undef => false
  | JVal.nan => false
  | JVal.bool b => b
  | JVal.num n => n != 0
  | JVal.str s => s != ""
  | JVal.arr _ => true
  | JVal.obj _ => true
  | JVal.ctrl _ => true

/-- `a || b` on JavaScript values. -/
def jsOrV (a b : JVal) : JVal := if jsTruthy a then a else b

/-- Loose equality `v == s` against a string, as used by the history-log
scan (`e.request == paramsAsText && e.path == path`); the compared entry
fields are always strings or absent. -/
def looseEqStr (v : JVal) (s : String) : Bool :=
  match v with
  | JVal.str t => t == s
  | _ => false

/-- JavaScript `v > x` where `x` is a number: true only when `v` is a
number greater than `x` (`undefined > x` and `NaN > x` are false). -/
def jsNumGt (v : JVal) (x : Int) : Bool :=
  match v with
  | JVal.num n => decide (x < n)
  | _ => false

/-- JavaScript `v + 1` as it occurs in `priorRequest?.currentPage + 1`:
number arithmetic, `undefined`/`NaN` propagate to `NaN`, strings
concatenate, `null` coerces to 0, booleans to 0/1. -/
def jsAddOne : JVal → JVal
  | JVal.num n => JVal.num (n + 1)
  | JVal.null => JVal.num 1
  | JVal.bool b => JVal.num (if b then 2 else 1)
  | JVal.str s => JVal.str (s ++ "1")
  | _ => JVal.nan

/-- Field read on an object: `undefined` for a missing key. -/
def objGet (o : JObj) (k : String) : JVal :=
  match o.find? (fun p => p.1 == k) with
  | some p => p.2
  | none => JVal.undef

/-- Field write `o[k] = v`: updates the first binding in place, else
appends (JavaScript property-insertion order). Also the semantics of
spreading `{...o, k: v}`. -/
def objSet (o : JObj) (k : String) (v : JVal) : JObj :=
  match o with
  | [] => [(k, v)]
  | p :: rest => if p.1 == k then (k, v) :: rest else p :: objSet rest k v

/-- JavaScript `delete o[k]`. -/
def objDelete (o : JObj) (k : String) : JObj :=
  o.filter (fun p => p.1 != k)

/-- `for (let key of Object.keys(response)) response[key] = undefined` —
the non-paginated reset keeps the keys, valued `undefined`. -/
def clearKeys (o : JObj) : JObj := o.map (fun p => (p.1, JVal.undef))

/-- `{...a, ...b}` on plain objects. -/
def objMerge (a b : JObj) : JObj := b.foldl (fun acc p => objSet acc p.1 p.2) a

/-- One escaped character of a JSON string (backslash and quote;
control-character escapes are not needed by any constructed key or
value). -/
def escChar (c : Char) : List Char :=
  if c = '\\' then ['\\', '\\'] else if c = '"' then ['\\', '"'] else [c]

/-- JSON string quoting. -/
def jsQuote (s : String) : String :=
  "\"" ++ String.mk (s.data.flatMap escChar) ++ "\""

mutual

/-- `JSON.stringify` of a value; `none` models the `undefined` result (for
`undefined` itself, which is dropped inside objects and becomes "null"
inside arrays). `AbortController` values stringify as empty objects. -/
def stringifyVal : JVal → Option String
  | JVal.null => some "null"
  | JVal.undef => none
  | JVal.nan => some "null"
  | JVal.bool b => some (if b then "true" else "false")
  | JVal.num n => some (toString n)
  | JVal.str s => some (jsQuote s)
  | JVal.arr xs => some ("[" ++ String.intercalate "," (stringifyArr xs) ++ "]")
  | JVal.obj fs => some ("\x7b" ++ String.intercalate "," (stringifyFields fs) ++ "\x7d")
  | JVal.ctrl _ => some "\x7b\x7d"

/-- Array elements of `JSON.stringify` (undefined renders as "null"). -/
def stringifyArr : List JVal → List String
  | [] => []
  | v :: rest => ((stringifyVal v).getD "null") :: stringifyArr rest

/-- Object members of `JSON.stringify` (undefined-valued keys dropped). -/
def stringifyFields : List (String × JVal) → List String
  | [] => []
  | (k, v) :: rest =>
    match stringifyVal v with
    | some sv => (jsQuote k ++ ":" ++ sv) :: stringifyFields rest
    | none => stringifyFields rest

end

/-- `JSON.stringify` of an object value (always a string). -/
def stringifyObj (o : JObj) : String := (stringifyVal (JVal.obj o)).getD ""

/-- `Object.keys(v)`: throws a TypeError on `null`/`undefined`; indices
for arrays and strings; `[]` for other primitives and controllers. -/
def jsObjectKeys : JVal → Except String (List String)
  | JVal.obj fs => Except.ok (fs.map (fun p => p.1))
  | JVal.arr xs => Except.ok ((List.range xs.length).map toString)
  | JVal.str s => Except.ok ((List.range s.length).map toString)
  | JVal.null => Except.error "Cannot convert undefined or null to object"
  | JVal.undef => Except.error "Cannot convert undefined or null to object"
  | _ => Except.ok []

/-- Property read `v[k]` on an already-checked receiver (object or array). -/
def jsFieldGet (v : JVal) (k : String) : JVal :=
  match v with
  | JVal.obj fs => objGet fs k
  | JVal.arr xs =>
    match k.toNat? with
    | some i => (xs[i]?).getD JVal.undef
    | none => JVal.undef
  | _ => JVal.undef

/-- The abort signal attached to a fetch: either `AbortSignal.timeout(s)`
or an `AbortController`'s signal. -/
inductive Signal where
  | timeoutSig (secs : Int)
  | ctrlSig (id : Nat)
deriving DecidableEq

/-- Observable side effects of one call, newest first: controller
creation, the transport invocation (with the signal it was given), an
`abort()` on an ongoing request's controller, a `setInterval` scheduling
for `repeatEvery`. -/
inductive Event where
  | controllerCreated (id : Nat)
  | transportCalled (sig : Signal)
  | abortedOngoing (id : Nat)
  | intervalScheduled (secs : Int)
deriving DecidableEq

/-- Outcome of one transport round trip (fetch plus body decoding), with
the message the TypeScript code throws for each failure mode:
network errors rethrow `e.message`; a non-2xx response throws
"HTTP error: status statusText"; decode errors throw
"Error parsing response: " plus the stringified exception; aborts
(timeout or duplicate cancellation) surface the abort reason's message,
which contains the word "signal" for timeout aborts. -/
inductive TransportOutcome where
  | ok (v : JVal)
  | netFail (msg : String)
  | httpFail (status : Nat) (statusText : String)
  | parseFail (msg : String)
  | abortFail (msg : String)

/-- Whether the transport outcome makes the call throw. -/
def TransportOutcome.isFailure : TransportOutcome → Bool
  | TransportOutcome.ok _ => false
  | _ => true

/-- The thrown error's `.message` for a failing transport outcome. -/
def errMsgOf : TransportOutcome → String
  | TransportOutcome.ok _ => ""
  | TransportOutcome.netFail m => m
  | TransportOutcome.httpFail s t => "HTTP error: " ++ toString s ++ " " ++ t
  | TransportOutcome.parseFail m => "Error parsing response: " ++ m
  | TransportOutcome.abortFail m => m

/-- A `grab.mock` handler (function-valued responses and `delay` are not
exercised by any claim; the response is a value). -/
structure MockHandler where
  response : JVal
  method : Option String := none
  params : Option JVal := none

/-- The options object passed to `grab` (and stored in `grab.defaults`):
each recognized option is `none` when the key is absent.  `params` is the
rest object (`...params` in the destructuring): all keys that are not
recognized options, in insertion order.  `repeatCount` is the source's
`repeat` option (renamed: `repeat` is a Lean tactic keyword);
`infiniteScroll` keeps the page key and merge field of the source's
3-element array (the third element is a DOM scroll target, unused in
Node).  Hook/logging options are outside the model (see header). -/
structure OptionsIn where
  response : Option JObj := none
  method : Option String := none
  cache : Option Bool := none
  cacheForTime : Option Int := none
  timeout : Option Int := none
  baseURL : Option String := none
  cancelOngoingIfNew : Option Bool := none
  cancelNewIfOngoing : Option Bool := none
  rateLimit : Option Int := none
  infiniteScroll : Option (String × String) := none
  setDefaults : Option Bool := none
  retryAttempts : Option Nat := none
  repeatCount : Option Nat := none
  repeatEvery : Option Int := none
  debounce : Option Int := none
  post : Option Bool := none
  put : Option Bool := none
  patch : Option Bool := none
  body : Option JVal := none
  params : JObj := []

/-- The process-wide state the orchestrator reads and writes: the history
log `grab.log` (entries as JavaScript objects, newest first), the defaults
store `grab.defaults`, the mock table `grab.mock`, the clock, the
transport oracle with the count of transport invocations so far, the next
fresh `AbortController` identity, and the event trace (newest first). -/
structure GrabState where
  log : List JObj := []
  defaults : Option OptionsIn := none
  mock : List (String × MockHandler) := []
  now : Int := 0
  transport : Nat → TransportOutcome
  calls : Nat := 0
  nextId : Nat := 0
  trace : List Event := []

/-- `{...grab.defaults, ...options}`: per-key override, later layer wins;
rest params merge by object spread. -/
def mergeOptions (d : Option OptionsIn) (o : OptionsIn) : OptionsIn :=
  match d with
  | none => o
  | some d =>
    { response := o.response <|> d.response
      method := o.method <|> d.method
      cache := o.cache <|> d.cache
      cacheForTime := o.cacheForTime <|> d.cacheForTime
      timeout := o.timeout <|> d.timeout
      baseURL := o.baseURL <|> d.baseURL
      cancelOngoingIfNew := o.cancelOngoingIfNew <|> d.cancelOngoingIfNew
      cancelNewIfOngoing := o.cancelNewIfOngoing <|> d.cancelNewIfOngoing
      rateLimit := o.rateLimit <|> d.rateLimit
      infiniteScroll := o.infiniteScroll <|> d.infiniteScroll
      setDefaults := o.setDefaults <|> d.setDefaults
      retryAttempts := o.retryAttempts <|> d.retryAttempts
      repeatCount := o.repeatCount <|> d.repeatCount
      repeatEvery := o.repeatEvery <|> d.repeatEvery
      debounce := o.debounce <|> d.debounce
      post := o.post <|> d.post
      put := o.put <|> d.put
      patch := o.patch <|> d.patch
      body := o.body <|> d.body
      params := objMerge d.params o.params }

/-- Whether the first character list is an initial segment of the
second (kernel-computable replacement for `String.startsWith`). -/
def listIsPref : List Char → List Char → Bool
  | [], _ => true
  | _ :: _, [] => false
  | a :: as, b :: bs => a == b && listIsPref as bs

/-- `s.startsWith t`. -/
def strStartsWith (s t : String) : Bool := listIsPref t.data s.data

/-- `s.endsWith t`. -/
def strEndsWith (s t : String) : Bool := listIsPref t.data.reverse s.data.reverse

/-- `s.slice`-free `s.drop n`. -/
def strDrop (s : String) (n : Nat) : String := String.mk (s.data.drop n)

/-- URL joining (source lines 121-124): absolute URLs clear the base;
otherwise exactly one slash is ensured between base and path. -/
def fixPath (path baseURL : String) : String × String :=
  if strStartsWith path "http:" || strStartsWith path "https:" then (path, "")
  else if !strStartsWith path "/" && !strEndsWith baseURL "/" then ("/" ++ path, baseURL)
  else if strStartsWith path "/" && strEndsWith baseURL "/" then (strDrop path 1, baseURL)
  else (path, baseURL)

/-- The serialized-params half of the CallKey:
`JSON.stringify(paginateKey ? {...params, [paginateKey]: undefined} : params)`.
Setting the cursor key to `undefined` removes it from the JSON text. -/
def paramsKey (pk : Option String) (params : JObj) : String :=
  match pk with
  | some k => stringifyObj (objSet params k JVal.undef)
  | none => stringifyObj params

/-- The cursor-parameter name, when `infiniteScroll` is set and its first
element is truthy (the source tests `paginateKey ?` with string
truthiness). -/
def pageKeyOf (isc : Option (String × String)) : Option String :=
  match isc with
  | some (k, _) => if k == "" then none else some k
  | none => none

/-- The accumulate-field name (`paginateResult`), when `infiniteScroll`
is set. -/
def mergeFieldOf (isc : Option (String × String)) : Option String :=
  match isc with
  | some (_, m) => some m
  | none => none

/-- The history-log scan predicate:
`e.request == paramsAsText && e.path == path`. -/
def entryMatches (path1 paramsAsText : String) (e : JObj) : Bool :=
  looseEqStr (objGet e "request") paramsAsText && looseEqStr (objGet e "path") path1

/-- In-place mutation of the log entry at an index (a reference held
across `unshift`s in the source; indices are adjusted at use sites). -/
def updateIdx : List JObj → Nat → (JObj → JObj) → List JObj
  | [], _, _ => []
  | x :: xs, 0, f => f x :: xs
  | x :: xs, Nat.succ i, f => x :: updateIdx xs i f

/-- The controller identity carried by a controller value (0 otherwise;
only applied to values known to be controllers). -/
def ctrlId : JVal → Nat
  | JVal.ctrl i => i
  | _ => 0

/-- Mock interception: handlers are looked up by exact path string, then
matched on method/params exactly as the source condition
`(!h.params || h.method == method) && (!h.params || paramsAsText == JSON.stringify(h.params))`. -/
def mockLookup (mock : List (String × MockHandler)) (path1 method paramsAsText : String) :
    Option JVal :=
  match mock.find? (fun p => p.1 == path1) with
  | none => none
  | some p =>
    let h := p.2
    if (h.params.isNone || h.method == some method) &&
        (h.params.isNone ||
          some paramsAsText == (h.params.map (fun q => (stringifyVal q).getD ""))) then
      some h.response
    else none

/-- Rendering of a value inside a query string (`URLSearchParams`
coercion, percent-encoding elided). -/
def jsToQueryStr : JVal → String
  | JVal.null => "null"
  | JVal.undef => "undefined"
  | JVal.nan => "NaN"
  | JVal.bool b => if b then "true" else "false"
  | JVal.num n => toString n
  | JVal.str s => s
  | JVal.arr _ => ""
  | JVal.obj _ => "[object Object]"
  | JVal.ctrl _ => "[object Object]"

/-- `paramsGETRequest`: empty for body-carrying methods, else the
`?`-prefixed query string when any params exist. -/
def queryOf (method : String) (params : JObj) : String :=
  if method == "POST" || method == "PUT" || method == "PATCH" then ""
  else if params.isEmpty then ""
  else "?" ++ String.intercalate "&"
    (params.map (fun p => p.1 ++ "=" ++ jsToQueryStr p.2))

/-- The fetch request configuration the transport receives. -/
structure FetchParams where
  method : String
  url : String
  body : JVal
  cacheMode : String
  signal : Signal

/-- Truthiness of `response[key]?.length` (true for nonempty arrays and
strings; numbers and objects have no/undefined `length`). -/
def lengthTruthy : JVal → Bool
  | JVal.arr l => !l.isEmpty
  | JVal.str s => s != ""
  | _ => false

/-- `[...a, ...b]`: array spread; strings spread into their characters;
anything else is not iterable and throws. -/
def concatSpread (a b : JVal) : Except String JVal :=
  match a, b with
  | JVal.arr x, JVal.arr y => Except.ok (JVal.arr (x ++ y))
  | JVal.arr x, JVal.str s =>
    Except.ok (JVal.arr (x ++ s.toList.map (fun ch => JVal.str (String.singleton ch))))
  | JVal.str s, JVal.arr y =>
    Except.ok (JVal.arr (s.toList.map (fun ch => JVal.str (String.singleton ch)) ++ y))
  | JVal.str s, JVal.str t =>
    Except.ok (JVal.arr ((s.toList ++ t.toList).map (fun ch => JVal.str (String.singleton ch))))
  | _, _ => Except.error "spread source is not iterable"

/-- `typeof v === "object"` (arrays and `null` included). -/
def isObjectType : JVal → Bool
  | JVal.obj _ => true
  | JVal.arr _ => true
  | JVal.null => true
  | JVal.ctrl _ => true
  | _ => false

/-- The result-merge loop (source lines 427-432): for each key of the
payload, overwrite the container's field, except that the accumulate-field
is concatenated onto a truthy-length existing value.  An error carries the
partially merged container (the throw happens mid-mutation). -/
def mergeKeys (mf : Option String) (res : JVal) :
    List String → JObj → Except (String × JObj) JObj
  | [], c => Except.ok c
  | k :: rest, c =>
    let v := jsFieldGet res k
    if mf == some k && lengthTruthy (objGet c k) then
      match concatSpread (objGet c k) v with
      | Except.ok merged => mergeKeys mf res rest (objSet c k merged)
      | Except.error m => Except.error (m, c)
    else mergeKeys mf res rest (objSet c k v)

/-- Updating the container from the decoded payload (source lines
425-436): object payloads are merged field-by-field (accumulate-field per
`mergeKeys`) and then aliased under `data`; non-object payloads are only
stored under `data`.  `typeof null === "object"`, so a null payload hits
`Object.keys(null)` and throws. -/
def mergeResponse (c : JObj) (res : JVal) (mf : Option String) :
    Except (String × JObj) JObj :=
  if isObjectType res then
    match jsObjectKeys res with
    | Except.error m => Except.error (m, c)
    | Except.ok keys =>
      match mergeKeys mf res keys c with
      | Except.error e => Except.error e
      | Except.ok c2 => Except.ok (objSet c2 "data" res)
  else Except.ok (objSet c "data" res)

/-- How the body of `grab`'s `try` block ends: a thrown error (with the
values of `params` and of the response container at the throw site), the
`{isLoading: true}` placeholder returned under `cancelNewIfOngoing`
(the container keeps its mutations made before the return), or the
normally returned container. -/
inductive MainExit where
  | thrown (msg : String) (params : JObj) (container : JObj)
  | placeholder (container : JObj)
  | success (container : JObj)

/-- The per-call configuration after option destructuring with defaults
(source lines 72-117) and URL fixing. -/
structure Cfg where
  path1 : String
  baseURL : String
  method : String
  cache : Bool
  cacheForTime : Int
  timeout : Int
  cancelOngoingIfNew : Bool
  cancelNewIfOngoing : Bool
  rateLimit : Int
  pk : Option String
  mf : Option String
  params : JObj
  container0 : JObj

/-- `Fetch rate limit exceeded ...` (source lines 279-280, including the
template literal's embedded newline and indentation). -/
def rateLimitMsg (path1 : String) (rl : Int) : String :=
  "Fetch rate limit exceeded for " ++ path1 ++ ". \n        Wait " ++
    toString rl ++ "s between requests."

/-- The history entry unshifted before the transport call (source lines
290-296): path, serialized CallKey params, timestamp, fresh controller. -/
def preEntry (path1 paramsAsText : String) (now : Int) (id : Nat) : JObj :=
  [("path", JVal.str path1), ("request", JVal.str paramsAsText),
   ("lastFetchTime", JVal.num now), ("controller", JVal.ctrl id)]

/-- The history entry unshifted on success (source lines 439-445).  Its
`request` field serializes `{...params, paginateKey: undefined}` with the
*literal* key "paginateKey" (source line 442), so for paginated calls the
cursor parameter stays in the serialization. -/
def succEntry (path1 : String) (params1 c : JObj) (now : Int) : JObj :=
  [("path", JVal.str path1),
   ("request", JVal.str (stringifyObj (objSet params1 "paginateKey" JVal.undef))),
   ("response", JVal.obj c), ("lastFetchTime", JVal.num now)]

/-- The history entry unshifted on a non-retried failure (source lines
480-485); note it carries no `lastFetchTime`. -/
def errEntry (path1 : String) (params1 : JObj) (msg : String) : JObj :=
  [("path", JVal.str path1), ("request", JVal.str (stringifyObj params1)),
   ("error", JVal.str msg)]

/-- Success processing after a decoded payload `rv` (source lines
395-449): clear the loading flag, release the prior entry's controller
(its index shifted by the one `unshift` since the scan), merge the
payload, and unshift the success history entry. -/
def grabFinish (st : GrabState) (cfg : Cfg) (priorIdx : Option Nat)
    (params1 : JObj) (cIn : JObj) (rv : JVal) : GrabState × MainExit :=
  let c1 := objDelete cIn "isLoading"
  let log1 :=
    match priorIdx with
    | some i => updateIdx st.log (i + 1) (fun e => objDelete e "controller")
    | none => st.log
  match mergeResponse c1 rv cfg.mf with
  | Except.error e => ({ st with log := log1 }, MainExit.thrown e.1 params1 e.2)
  | Except.ok c2 =>
    ({ st with log := succEntry cfg.path1 params1 c2 st.now :: log1 },
     MainExit.success c2)

/-- The tail of the `try` block shared by both pagination branches, from
setting the loading flag (line 268) to the success return (line 449):
rate-limit gate, duplicate-cancellation gate, history insertion with a
fresh controller, fetch-parameter construction, mock interception or
transport, result merge, and the success history entry.  `params1` is the
current value of `params` (the paginated branch rewrites it),
`c0` the current container value. -/
def grabRest (st : GrabState) (cfg : Cfg) (paramsAsText : String)
    (priorIdx : Option Nat) (params1 : JObj) (c0 : JObj) :
    GrabState × MainExit :=
  let c1 := objSet c0 "isLoading" (JVal.bool true)
  let priorVal := fun (k : String) =>
    match priorIdx with
    | some i => objGet ((st.log[i]?).getD []) k
    | none => JVal.undef
  if decide (0 < cfg.rateLimit) && jsTruthy (priorVal "lastFetchTime") &&
      jsNumGt (priorVal "lastFetchTime") (st.now - 1000 * cfg.rateLimit) then
    (st, MainExit.thrown (rateLimitMsg cfg.path1 cfg.rateLimit) params1 c1)
  else
    let ctrlV := priorVal "controller"
    let tr1 :=
      if jsTruthy ctrlV && cfg.cancelOngoingIfNew then
        Event.abortedOngoing (ctrlId ctrlV) :: st.trace
      else st.trace
    let st1 := { st with trace := tr1 }
    if jsTruthy ctrlV && !cfg.cancelOngoingIfNew && cfg.cancelNewIfOngoing then
      (st1, MainExit.placeholder c1)
    else
      let myId := st1.nextId
      let st2 := { st1 with
        log := preEntry cfg.path1 paramsAsText st1.now myId :: st1.log
        nextId := myId + 1
        trace := Event.controllerCreated myId :: st1.trace }
      let fetchParams : FetchParams :=
        { method := cfg.method
          url := cfg.baseURL ++ cfg.path1 ++ queryOf cfg.method params1
          body :=
            if cfg.method == "POST" || cfg.method == "PUT" || cfg.method == "PATCH" then
              jsOrV (objGet params1 "body") (JVal.str (stringifyObj params1))
            else objGet params1 "body"
          cacheMode := if cfg.cache then "force-cache" else "no-store"
          signal :=
            if cfg.cancelOngoingIfNew then Signal.ctrlSig myId
            else Signal.timeoutSig cfg.timeout }
      match mockLookup st2.mock cfg.path1 cfg.method paramsAsText with
      | some rv =>
        grabFinish st2 cfg priorIdx params1 c1 rv
      | none =>
        let out := st2.transport st2.calls
        let st3 := { st2 with
          calls := st2.calls + 1
          trace := Event.transportCalled fetchParams.signal :: st2.trace }
        match out with
        | TransportOutcome.ok rv =>
          grabFinish st3 cfg priorIdx params1 c1 rv
        | TransportOutcome.netFail m =>
          (st3, MainExit.thrown m params1 c1)
        | TransportOutcome.httpFail s t =>
          (st3, MainExit.thrown (errMsgOf (TransportOutcome.httpFail s t)) params1 c1)
        | TransportOutcome.parseFail m =>
          (st3, MainExit.thrown (errMsgOf (TransportOutcome.parseFail m)) params1 c1)
        | TransportOutcome.abortFail m =>
          (st3, MainExit.thrown m params1 c1)

/-- The body of `grab`'s `try` block from the history scan (line 223)
onward: derive the serialized CallKey params, scan the log for the most
recent matching entry, then either the non-paginated reset/cache-read or
the paginated page-tracking, and continue with `grabRest`.

The cache read (source lines 243-245) accesses `priorRequest.res` — a
field no history entry ever carries (entries store the response under
`response`), so it yields `undefined` and `Object.keys` throws a
TypeError; with no prior entry at all (`cacheForTime` zero) the property
read itself throws.  Modelled generically through `jsObjectKeys` /
`jsFieldGet` so the read stays faithful whatever the entry holds. -/
def grabMain (st : GrabState) (cfg : Cfg) : GrabState × MainExit :=
  let paramsAsText := paramsKey cfg.pk cfg.params
  let priorIdx := st.log.findIdx? (entryMatches cfg.path1 paramsAsText)
  match cfg.pk with
  | none =>
    let c0 := clearKeys cfg.container0
    let priorFresh :=
      match priorIdx with
      | some i =>
        jsNumGt (objGet ((st.log[i]?).getD []) "lastFetchTime")
          (st.now - 1000 * cfg.cacheForTime)
      | none => false
    if cfg.cache && (decide (cfg.cacheForTime = 0) || priorFresh) then
      match priorIdx with
      | none =>
        (st, MainExit.thrown "Cannot read properties of undefined (reading res)"
          cfg.params c0)
      | some i =>
        let resV := objGet ((st.log[i]?).getD []) "res"
        match jsObjectKeys resV with
        | Except.error m => (st, MainExit.thrown m cfg.params c0)
        | Except.ok keys =>
          let c1 := keys.foldl (fun c k => objSet c k (jsFieldGet resV k)) c0
          grabRest st cfg paramsAsText priorIdx cfg.params c1
    else grabRest st cfg paramsAsText priorIdx cfg.params c0
  | some k =>
    let curPage :=
      match priorIdx with
      | some i => objGet ((st.log[i]?).getD []) "currentPage"
      | none => JVal.undef
    let pageCandidate :=
      jsOrV (jsAddOne curPage) (jsOrV (objGet cfg.params k) (JVal.num 1))
    match priorIdx with
    | none =>
      let c0 := objSet cfg.container0 ((cfg.mf).getD "undefined") (JVal.arr [])
      let params1 := objSet cfg.params k (JVal.num 1)
      grabRest st cfg paramsAsText priorIdx params1 c0
    | some i =>
      let log1 := updateIdx st.log i (fun e => objSet e "currentPage" pageCandidate)
      let params1 := objSet cfg.params k pageCandidate
      grabRest { st with log := log1 } cfg paramsAsText priorIdx params1 cfg.container0

/-- What the promise returned by `grab` settles to: a resolved value (the
container object, or `undefined` for the `setDefaults` path), the
never-invoked debounced wrapper function returned by the debounce branch,
or a rejection (an exception escaping the `catch` handler itself). -/
inductive GrabRet where
  | val (v : JVal)
  | debouncedFn
  | rejected (msg : String)

/-- Whether the promise rejected. -/
def GrabRet.isRejected : GrabRet → Bool
  | GrabRet.rejected _ => true
  | _ => false

/-- A finished call: the settled promise value and the final value of the
caller's response container. -/
structure GrabOutcome where
  ret : GrabRet
  container : JObj

/-- The `repeat` loop (source lines 136-140) abstracted over the
sub-call: `repeat` sequential sub-calls, threading the caller's container
value (only when the raw options actually carried one — a container
reached solely through `grab.defaults` is not value-threaded here, see
the header note). -/
def repeatLoopWith (call : GrabState → Option JObj → GrabState × GrabOutcome) :
    Nat → GrabState → Option JObj → GrabState × Option JObj
  | 0, st, c => (st, c)
  | Nat.succ i, st, c =>
    let r := call st c
    repeatLoopWith call i r.1 (match c with | some _ => some r.2.container | none => none)

/-- One invocation of `grab(path, options)`, fuelled (the fuel is a
recursion bound only: `grabFuel` always suffices — retries strictly
decrease the raw `retryAttempts`, and repeat sub-calls carry `repeat: 0`
and never retry deeper than their own budget).

Order of business as in the source: merge process defaults under the
per-call options, destructure with defaults, fix the URL, then inside
`try`: debounce (returns the wrapper function produced by `debouncer`
without ever invoking it — the source awaits `debouncer(...)`, which
merely *returns* `executedFunction`), repeat, repeatEvery (schedules an
interval and returns), setDefaults (stores the raw options with
`setDefaults` cleared and returns `undefined`), then the main body
(`grabMain`).  The `catch` handler reads `options.retryAttempts` off the
*raw* options argument — with no options object that property access
itself throws and the promise rejects. -/
def grabGo : Nat → GrabState → String → Option OptionsIn → GrabState × GrabOutcome
  | 0, st, _, _ =>
    (st, { ret := GrabRet.rejected "fuel exhausted (unreachable)", container := [] })
  | Nat.succ g, st, path0, options =>
    let oIn := options.getD {}
    let merged := mergeOptions st.defaults oIn
    let method := merged.method.getD
      (if oIn.post.getD false then "POST"
       else if oIn.put.getD false then "PUT"
       else if oIn.patch.getD false then "PATCH"
       else "GET")
    let pb := fixPath path0 (merged.baseURL.getD "/api/")
    let path1 := pb.1
    if decide (0 < merged.debounce.getD 0) then
      (st, { ret := GrabRet.debouncedFn, container := merged.response.getD [] })
    else if decide (1 < merged.repeatCount.getD 0) then
      let r := repeatLoopWith
        (fun st2 c => grabGo g st2 path1
          (some { oIn with repeatCount := some 0, response := c }))
        (merged.repeatCount.getD 0) st oIn.response
      let retC :=
        match oIn.response, r.2 with
        | some _, some cv => cv
        | _, _ => merged.response.getD []
      (r.1, { ret := GrabRet.val (JVal.obj retC), container := retC })
    else if (match merged.repeatEvery with | some x => x != 0 | none => false) then
      ({ st with trace := Event.intervalScheduled (merged.repeatEvery.getD 0) :: st.trace },
       { ret := GrabRet.val (JVal.obj (merged.response.getD [])),
         container := merged.response.getD [] })
    else if oIn.setDefaults.getD false then
      ({ st with defaults := some { oIn with setDefaults := none } },
       { ret := GrabRet.val JVal.undef, container := merged.response.getD [] })
    else
      let cfg : Cfg :=
        { path1 := path1
          baseURL := pb.2
          method := method
          cache := merged.cache.getD false
          cacheForTime := merged.cacheForTime.getD 60
          timeout := merged.timeout.getD 30
          cancelOngoingIfNew := merged.cancelOngoingIfNew.getD false
          cancelNewIfOngoing := merged.cancelNewIfOngoing.getD false
          rateLimit := merged.rateLimit.getD 0
          pk := pageKeyOf merged.infiniteScroll
          mf := mergeFieldOf merged.infiniteScroll
          params := merged.params
          container0 := merged.response.getD [] }
      match grabMain st cfg with
      | (st1, MainExit.success c) =>
        (st1, { ret := GrabRet.val (JVal.obj c), container := c })
      | (st1, MainExit.placeholder c) =>
        (st1, { ret := GrabRet.val (JVal.obj [("isLoading", JVal.bool true)]),
                container := c })
      | (st1, MainExit.thrown m pThrow cThrow) =>
        match options with
        | none =>
          (st1, { ret := GrabRet.rejected
                    "TypeError: Cannot read properties of undefined (reading retryAttempts)",
                  container := cThrow })
        | some oRaw =>
          if decide (0 < oRaw.retryAttempts.getD 0) then
            grabGo g st1 path1
              (some { oRaw with
                retryAttempts := some (oRaw.retryAttempts.getD 0 - 1)
                response := oRaw.response.map (fun _ => cThrow) })
          else
            let c1 := objDelete (objSet cThrow "error" (JVal.str m)) "isLoading"
            ({ st1 with log := errEntry path1 pThrow m :: st1.log },
             { ret := GrabRet.val (JVal.obj c1), container := c1 })

/-- Sufficient fuel for a call: one unit beyond the raw retry budget plus
one for the initial invocation. -/
def grabFuel (options : Option OptionsIn) : Nat :=
  (match options with | some o => o.retryAttempts.getD 0 | none => 0) + 2

/-- `grab(path, options)` on an explicit state. -/
def grab (st : GrabState) (path : String) (options : Option OptionsIn) :
    GrabState × GrabOutcome :=
  grabGo (grabFuel options) st path options

/-- A sequence of `k` calls to the same target reusing one response
container: each call receives the previous call's final container value
(the source passes the same mutable object). -/
def runSeq (st : GrabState) (path : String) (oIn : OptionsIn) (c : JObj) :
    Nat → GrabState × JObj
  | 0 => (st, c)
  | Nat.succ k =>
    let r := runSeq st path oIn c k
    let r2 := grab r.1 path (some { oIn with response := some r.2 })
    (r2.1, r2.2.container)

/-! ### Concrete scenarios used by the claim theorems -/

/-- The payload of the spec's concrete cache scenario. -/
def thingsPayload : JVal := JVal.obj [("id", JVal.num 1), ("name", JVal.str "a")]

/-- A transport that always succeeds with `thingsPayload`. -/
def okTransport : Nat → TransportOutcome := fun _ => TransportOutcome.ok thingsPayload

/-- Start state of the cache scenario: empty log, clock at 1000000 ms. -/
def cacheState : GrabState := { transport := okTransport, now := 1000000 }

/-- `{cache: true, cacheForTime: 60}` with a caller-supplied container. -/
def cacheOpts : OptionsIn := { cache := some true, cacheForTime := some 60, response := some [] }

/-- First cached call to `/things`. -/
def cacheCall1 : GrabState × GrabOutcome := grab cacheState "/things" (some cacheOpts)

/-- Identical second call 5 seconds later (within the freshness window),
reusing the same container. -/
def cacheCall2 : GrabState × GrabOutcome :=
  grab { cacheCall1.1 with now := cacheCall1.1.now + 5000 } "/things"
    (some { cacheOpts with response := some cacheCall1.2.container })

/-- Start state of the debounce burst. -/
def burstState : GrabState := { transport := okTransport, now := 0 }

/-- A 1-second debounce (the `debounce` option is in seconds). -/
def burstOpts : OptionsIn := { debounce := some 1, response := some [] }

/-- Burst call at t = 0 ms. -/
def burstCall1 : GrabState × GrabOutcome := grab burstState "/d" (some burstOpts)

/-- Burst call at t = 10 ms (inside the 1000 ms window). -/
def burstCall2 : GrabState × GrabOutcome :=
  grab { burstCall1.1 with now := 10 } "/d" (some burstOpts)

/-- Burst call at t = 20 ms (inside the 1000 ms window). -/
def burstCall3 : GrabState × GrabOutcome :=
  grab { burstCall2.1 with now := 20 } "/d" (some burstOpts)

/-- A matching history entry with a fresh timestamp (as a completed call
records). -/
def rlFreshEntry : JObj :=
  [("path", JVal.str "z"), ("request", JVal.str "\x7b\x7d"),
   ("lastFetchTime", JVal.num 999000)]

/-- A matching failure entry — failure entries carry no `lastFetchTime`
(source lines 480-485). -/
def rlErrEntry : JObj :=
  [("path", JVal.str "z"), ("request", JVal.str "\x7b\x7d"), ("error", JVal.str "x")]

/-- State whose most recent matching entry is the failure entry, with a
fresh success entry behind it (reachable: a success at t=999000 followed
by a rate-limited failure). -/
def rlState : GrabState :=
  { transport := okTransport, now := 1000000, log := [rlErrEntry, rlFreshEntry] }

/-- A call with a 5-second rate limit against `rlState`. -/
def rlCall : GrabState × GrabOutcome := grab rlState "/z" (some { rateLimit := some 5 })

/-- A transport that always fails with a network error. -/
def downTransport : Nat → TransportOutcome := fun _ => TransportOutcome.netFail "network down"

/-- State for the options-less failing call. -/
def rejState : GrabState := { transport := downTransport, now := 0 }

/-- `grab(path)` with no options argument against a failing transport. -/
def rejCall : GrabState × GrabOutcome := grab rejState "/x" none

/-- A matching in-flight history entry (live controller, no response). -/
def flightEntry : JObj :=
  [("path", JVal.str "z"), ("request", JVal.str "\x7b\x7d"),
   ("lastFetchTime", JVal.num 999000), ("controller", JVal.ctrl 0)]

/-- State holding one in-flight entry for the dedup short-circuit. -/
def dedupState : GrabState :=
  { transport := okTransport, now := 1000000, log := [flightEntry] }

/-- A call with `cancelNewIfOngoing` against the in-flight entry. -/
def dedupCall : GrabState × GrabOutcome :=
  grab dedupState "/z" (some { cancelNewIfOngoing := some true })

/-- Params `{a: 1, b: 2}` in one insertion order. -/
def paramsAB : JObj := [("a", JVal.num 1), ("b", JVal.num 2)]

/-- The same map with the other insertion order. -/
def paramsBA : JObj := [("b", JVal.num 2), ("a", JVal.num 1)]

/-- State for the cancelOngoingIfNew signal check. -/
def coState : GrabState := { transport := okTransport, now := 0 }

/-- A call with `cancelOngoingIfNew: true` (default 30-second timeout). -/
def coCall : GrabState × GrabOutcome :=
  grab coState "/c" (some { cancelOngoingIfNew := some true, response := some [] })

/-- Witness for C10 at a concrete input. -/
def c10State : GrabState := { transport := okTransport, now := 0 }

/-- Concrete options for the C10 witness. -/
def c10Opts : OptionsIn :=
  { setDefaults := some true, cache := some true, response := some [("keep", JVal.num 3)] }

/-- Transport for the C3 witness: attempt `i` fails with message
`"boom" ++ i`. -/
def boomTransport : Nat → TransportOutcome :=
  fun i => TransportOutcome.netFail ("boom" ++ toString i)

/-- State for the C3 witness. -/
def c3State : GrabState := { transport := boomTransport, now := 0 }

/-- State for the C4 witness: one fresh matching success entry. -/
def c4State : GrabState :=
  { transport := okTransport, now := 1000000, log := [rlFreshEntry] }

/-- Transport returning page `i`'s array under the accumulate-field
`items` on the `i`-th transport invocation. -/
def pagesTransport (pages : Nat → List JVal) : Nat → TransportOutcome :=
  fun i => TransportOutcome.ok (JVal.obj [("items", JVal.arr (pages i))])

/-- Clean start state for a paginated sequence. -/
def pagState (pages : Nat → List JVal) : GrabState :=
  { transport := pagesTransport pages, now := 0 }

/-- `infiniteScroll: ["page", "items", ...]`. -/
def pagOpts : OptionsIn := { infiniteScroll := some ("page", "items") }

/-- Concatenation of the arrays of the first `k` pages in call order. -/
def flatPages (pages : Nat → List JVal) : Nat → List JVal
  | 0 => []
  | Nat.succ k => flatPages pages k ++ pages k

/-- Expected container after paginated call `k + 1`: the accumulate-field
holds all pages so far in call order, `data` aliases the last payload. -/
def pagCont (pages : Nat → List JVal) (k : Nat) : JObj :=
  [("items", JVal.arr (flatPages pages (k + 1))),
   ("data", JVal.obj [("items", JVal.arr (pages k))])]

/-- Pages for the C9 witness: page `i` is the one-element array `[i]`. -/
def witPages : Nat → List JVal := fun i => [JVal.num i]

/-! ### Claim theorems -/

/-- C1: the spec says a fresh cache hit copies every field of the
recorded response into the container before any transport activity.  The
code reads `priorRequest.res`, a field no history entry ever stores (the
entry interface and the success path use `response`), so the second
identical call within the freshness window throws
`Object.keys(undefined)`'s TypeError instead: the container ends with the
TypeError message in `error`, its data fields reset to undefined, and no
field of the recorded response copied.  (The transport is not re-invoked
either: the throw happens before the request is issued.) -/
theorem C1_cache_hit_copy_fails :
    objGet cacheCall1.2.container "id" = JVal.num 1 ∧
    objGet cacheCall1.2.container "name" = JVal.str "a" ∧
    cacheCall2.1.calls = 1 ∧
    objGet cacheCall2.2.container "id" = JVal.undef ∧
    objGet cacheCall2.2.container "name" = JVal.undef ∧
    objGet cacheCall2.2.container "error" =
      JVal.str "Cannot convert undefined or null to object" :=
  ⟨rfl, rfl, rfl, rfl, rfl, rfl⟩

/-- C2: the spec says a burst of debounced calls coalesces into exactly
one trailing execution with the last call's arguments.  The code's
`debouncer` *returns* the wrapper function without ever invoking it (and
each call builds a fresh debouncer, sharing no timer), so a burst of
three calls inside the window executes the underlying call zero times —
each call resolves with the wrapper function itself. -/
theorem C2_debounce_executes_nothing :
    burstCall3.1.calls = 0 ∧
    burstCall3.1.calls ≠ 1 ∧
    burstCall1.2.ret = GrabRet.debouncedFn ∧
    burstCall2.2.ret = GrabRet.debouncedFn ∧
    burstCall3.2.ret = GrabRet.debouncedFn ∧
    burstCall3.1.trace = [] ∧
    burstCall3.1.log = [] :=
  ⟨rfl, by decide, rfl, rfl, rfl, rfl, rfl⟩

/-- C5: the spec says every failure is caught at the orchestrator
boundary and the promise always resolves.  When `grab` is called without
an options object (its documented basic usage) and the transport fails,
the `catch` handler itself throws reading `options.retryAttempts` of
`undefined`, so the promise rejects and no error is written into the
container. -/
theorem C5_no_options_failure_rejects :
    rejCall.2.ret.isRejected = true ∧
    objGet rejCall.2.container "error" = JVal.undef :=
  ⟨rfl, rfl⟩

/-- C4 counterexample: a call whose CallKey matches *a* history entry
with a timestamp inside the rate-limit window (here `rlFreshEntry`, at
index 1) is not failed fast when the *most recent* matching entry is a
failure entry without `lastFetchTime`: the transport is invoked
(`calls = 1`) and the call succeeds with no error. -/
theorem C4_counterexample_existing_fresh_entry_not_limited :
    entryMatches "z" (paramsKey none []) rlFreshEntry = true ∧
    jsNumGt (objGet rlFreshEntry "lastFetchTime") (rlState.now - 1000 * 5) = true ∧
    rlState.log[1]? = some rlFreshEntry ∧
    rlCall.1.calls = 1 ∧
    objGet rlCall.2.container "error" = JVal.undef :=
  ⟨rfl, rfl, rfl, rfl, rfl⟩

/-- C6 counterexample: a call short-circuited by `cancelNewIfOngoing`
resolves with the `{isLoading: true}` placeholder, reaches no transport,
and adds no entry of any kind to the History Log (source line 287 returns
before the history `unshift` and never reaches the `catch` logger). -/
theorem C6_counterexample_cancel_new_adds_no_entry :
    dedupCall.2.ret = GrabRet.val (JVal.obj [("isLoading", JVal.bool true)]) ∧
    dedupCall.1.log = dedupState.log ∧
    dedupCall.1.calls = 0 :=
  ⟨rfl, rfl, rfl⟩

/-- C7 counterexample: two param objects equal as key-value maps but
supplied in different insertion orders serialize to different CallKeys
(`JSON.stringify` is insertion-order-sensitive), so a history entry
recorded under one ordering does not match a lookup under the other. -/
theorem C7_counterexample_key_order_sensitive :
    objGet paramsAB "a" = objGet paramsBA "a" ∧
    objGet paramsAB "b" = objGet paramsBA "b" ∧
    paramsKey none paramsAB ≠ paramsKey none paramsBA ∧
    entryMatches "p" (paramsKey none paramsBA)
      [("path", JVal.str "p"), ("request", JVal.str (paramsKey none paramsAB))] = false :=
  ⟨rfl, rfl, by decide, rfl⟩

/-- C8 counterexample: with `cancelOngoingIfNew: true` the fetch is given
the new call's own controller signal and no timeout signal at all
(source lines 310-312 choose one or the other), refuting the claim that
the default 30-second timeout aborts independently of
`cancelOngoingIfNew`. -/
theorem C8_counterexample_no_timeout_with_cancel_ongoing :
    coCall.1.trace[0]? = some (Event.transportCalled (Signal.ctrlSig 0)) ∧
    coCall.1.trace[0]? ≠ some (Event.transportCalled (Signal.timeoutSig 30)) :=
  ⟨rfl, by decide⟩

/-- C10: a call whose options carry `setDefaults: true` (a plain call:
no debounce/repeat/repeatEvery routing it elsewhere first, and no
pre-existing process defaults) stores the supplied options with
`setDefaults` cleared as the process-wide defaults and resolves to
`undefined`, leaving the state otherwise untouched: no transport request,
no History Log entry, and the caller's container value unmodified. -/
theorem C10_set_defaults_stores_and_returns_undefined
    (st : GrabState) (path : String) (o : OptionsIn)
    (hd : st.defaults = none) (hsd : o.setDefaults = some true)
    (hdeb : o.debounce = none) (hrep : o.repeatCount = none)
    (hre : o.repeatEvery = none) :
    grab st path (some o) =
      ({ st with defaults := some { o with setDefaults := none } },
       { ret := GrabRet.val JVal.undef, container := o.response.getD [] }) := by
  simp [grab, grabFuel, grabGo, mergeOptions, hd, hsd, hdeb, hrep, hre]

/-- C10 witness: the theorem applied at a concrete state and options. -/
theorem C10_witness :
    grab c10State "/s" (some c10Opts) =
      ({ c10State with defaults := some { c10Opts with setDefaults := none } },
       { ret := GrabRet.val JVal.undef, container := [("keep", JVal.num 3)] }) :=
  C10_set_defaults_stores_and_returns_undefined c10State "/s" c10Opts rfl rfl rfl rfl rfl

/-- One plain failing attempt with no retry budget left: the call
records the pre-request entry and the failure entry, bumps the transport
counter once, and resolves with the last error in the container. -/
theorem grab_attempt_fail_last (st : GrabState) (path : String) (ps : JObj) (g : Nat)
    (hm : st.mock = []) (hd : st.defaults = none)
    (hf : (st.transport st.calls).isFailure = true) :
    grabGo (Nat.succ g) st path (some { retryAttempts := some 0, params := ps }) =
    (let path1 := (fixPath path "/api/").1
     let pT := stringifyObj ps
     let msg := errMsgOf (st.transport st.calls)
     ({ st with
        log := errEntry path1 ps msg :: preEntry path1 pT st.now st.nextId :: st.log
        calls := st.calls + 1
        nextId := st.nextId + 1
        trace := Event.transportCalled (Signal.timeoutSig 30) ::
          Event.controllerCreated st.nextId :: st.trace },
      { ret := GrabRet.val (JVal.obj [("error", JVal.str msg)])
        container := [("error", JVal.str msg)] })) := by
  cases h : st.transport st.calls
  case ok v => rw [h] at hf; simp [TransportOutcome.isFailure] at hf
  all_goals
    simp [grabGo, grabMain, grabRest, mergeOptions, hd, hm, h, mockLookup,
      pageKeyOf, mergeFieldOf, paramsKey, clearKeys, errMsgOf,
      objSet, objDelete, objGet, preEntry, errEntry]

/-- One plain failing attempt with retry budget left: the whole call is
re-invoked on the post-attempt state with the budget decremented. -/
theorem grab_attempt_fail_retry (st : GrabState) (path : String) (ps : JObj) (g r : Nat)
    (hm : st.mock = []) (hd : st.defaults = none)
    (hf : (st.transport st.calls).isFailure = true) :
    grabGo (Nat.succ g) st path (some { retryAttempts := some (Nat.succ r), params := ps }) =
    grabGo g
      { st with
        log := preEntry (fixPath path "/api/").1 (stringifyObj ps) st.now st.nextId :: st.log
        calls := st.calls + 1
        nextId := st.nextId + 1
        trace := Event.transportCalled (Signal.timeoutSig 30) ::
          Event.controllerCreated st.nextId :: st.trace }
      (fixPath path "/api/").1
      (some { retryAttempts := some r, params := ps }) := by
  cases h : st.transport st.calls
  case ok v => rw [h] at hf; simp [TransportOutcome.isFailure] at hf
  all_goals
    simp [grabGo, grabMain, grabRest, mergeOptions, hd, hm, h, mockLookup,
      pageKeyOf, mergeFieldOf, paramsKey, clearKeys, errMsgOf,
      objSet, objDelete, objGet, preEntry, errEntry]

/-- Against an always-failing transport, a call with retry budget `n`
invokes the transport exactly `n + 1` times and resolves with the last
attempt's error (induction over the retry chain). -/
theorem grab_all_fail_aux :
    ∀ (n : Nat) (path : String) (ps : JObj) (st : GrabState),
      st.mock = [] → st.defaults = none →
      (∀ i, (st.transport i).isFailure = true) →
      (grabGo (n + 2) st path (some { retryAttempts := some n, params := ps })).1.calls
          = st.calls + n + 1 ∧
      (grabGo (n + 2) st path (some { retryAttempts := some n, params := ps })).2 =
        { ret := GrabRet.val (JVal.obj
            [("error", JVal.str (errMsgOf (st.transport (st.calls + n))))])
          container := [("error", JVal.str (errMsgOf (st.transport (st.calls + n))))] } := by
  intro n
  induction n with
  | zero =>
    intro path ps st hm hd hf
    rw [show (0 + 2 : Nat) = Nat.succ 1 from rfl,
      grab_attempt_fail_last st path ps 1 hm hd (hf st.calls)]
    simp
  | succ n ih =>
    intro path ps st hm hd hf
    rw [show (Nat.succ n + 2 : Nat) = Nat.succ (n + 2) from rfl,
      grab_attempt_fail_retry st path ps (n + 2) n hm hd (hf st.calls)]
    have h := ih (fixPath path "/api/").1 ps
      { st with
        log := preEntry (fixPath path "/api/").1 (stringifyObj ps) st.now st.nextId :: st.log
        calls := st.calls + 1
        nextId := st.nextId + 1
        trace := Event.transportCalled (Signal.timeoutSig 30) ::
          Event.controllerCreated st.nextId :: st.trace }
      (by simpa using hm) (by simpa using hd) (by simpa using hf)
    simp only at h
    refine ⟨?_, ?_⟩
    · rw [h.1]; omega
    · rw [h.2]
      have he : st.calls + 1 + n = st.calls + (n + 1) := by omega
      rw [he]

/-- C3: for every call with `retryAttempts = n` (a plain call: no
debounce/repeat/cache/rate-limit options, no process defaults or mocks)
against a transport that fails on every attempt, the orchestrator
re-invokes the whole call until the budget is exhausted: the transport is
invoked exactly `n + 1` times, and the final resolved container carries
exactly the error of the last attempt. -/
theorem C3_retry_exhaustion (st : GrabState) (path : String) (n : Nat) (ps : JObj)
    (hm : st.mock = []) (hd : st.defaults = none)
    (hf : ∀ i, (st.transport i).isFailure = true) :
    (grab st path (some { retryAttempts := some n, params := ps })).1.calls
        = st.calls + n + 1 ∧
    (grab st path (some { retryAttempts := some n, params := ps })).2 =
      { ret := GrabRet.val (JVal.obj
          [("error", JVal.str (errMsgOf (st.transport (st.calls + n))))])
        container := [("error", JVal.str (errMsgOf (st.transport (st.calls + n))))] } :=
  grab_all_fail_aux n path ps st hm hd hf

/-- C3 witness: with `retryAttempts = 2` the transport runs exactly 3
times and the container carries attempt 2's error. -/
theorem C3_witness :
    (grab c3State "/y" (some { retryAttempts := some 2, params := [] })).1.calls = 3 ∧
    (grab c3State "/y" (some { retryAttempts := some 2, params := [] })).2 =
      { ret := GrabRet.val (JVal.obj [("error", JVal.str "boom2")])
        container := [("error", JVal.str "boom2")] } :=
  C3_retry_exhaustion c3State "/y" 2 [] rfl rfl (fun _ => rfl)

/-- C4 (amended): when the *most recent* matching History Log entry has a
`lastFetchTime` inside the rate-limit window, a plain call with
`rateLimit = r > 0` fails fast: it resolves (does not reject) with the
rate-limit error in the container's error field, a failure entry is
prepended, and the state is otherwise untouched — in particular the
transport is never invoked. -/
theorem C4_amended_most_recent_fresh_fails_fast
    (st : GrabState) (path : String) (ps : JObj) (rl : Int) (i : Nat) (e : JObj)
    (hd : st.defaults = none) (hrl : 0 < rl)
    (hfind : st.log.findIdx? (entryMatches (fixPath path "/api/").1 (stringifyObj ps))
        = some i)
    (he : st.log[i]? = some e)
    (ht : jsTruthy (objGet e "lastFetchTime") = true)
    (hfresh : jsNumGt (objGet e "lastFetchTime") (st.now - 1000 * rl) = true) :
    grab st path (some { rateLimit := some rl, params := ps }) =
      (let p1 := (fixPath path "/api/").1
       let msg := rateLimitMsg p1 rl
       ({ st with log := errEntry p1 ps msg :: st.log },
        { ret := GrabRet.val (JVal.obj [("error", JVal.str msg)])
          container := [("error", JVal.str msg)] })) := by
  simp [grab, grabFuel, grabGo, grabMain, grabRest, mergeOptions, paramsKey,
    pageKeyOf, mergeFieldOf, clearKeys, hd, hrl, hfind, he, ht, hfresh,
    objSet, objDelete, errEntry]

/-- C4 witness: the amended theorem applied at a concrete state. -/
theorem C4_witness :
    grab c4State "/z" (some { rateLimit := some 5, params := [] }) =
      ({ c4State with log := errEntry "z" [] (rateLimitMsg "z" 5) :: c4State.log },
       { ret := GrabRet.val (JVal.obj [("error", JVal.str (rateLimitMsg "z" 5))])
         container := [("error", JVal.str (rateLimitMsg "z" 5))] }) :=
  C4_amended_most_recent_fresh_fails_fast c4State "/z" [] 5 0 rlFreshEntry
    rfl (by decide) rfl rfl rfl rfl

/-- C6 (amended): a plain call that ends in failure at the `catch`
handler with no remaining retry budget always appends an entry recording
that failure to the History Log (on top of its pre-request entry); but a
call short-circuited by `cancelNewIfOngoing` returns a placeholder
without recording anything (see the counterexample theorem). -/
theorem C6_amended_failure_appends_log_entry
    (st : GrabState) (path : String) (ps : JObj)
    (hm : st.mock = []) (hd : st.defaults = none)
    (hf : (st.transport st.calls).isFailure = true) :
    (grab st path (some { params := ps })).1.log =
      errEntry (fixPath path "/api/").1 ps (errMsgOf (st.transport st.calls)) ::
        preEntry (fixPath path "/api/").1 (stringifyObj ps) st.now st.nextId :: st.log := by
  cases h : st.transport st.calls
  case ok v => rw [h] at hf; simp [TransportOutcome.isFailure] at hf
  all_goals
    simp [grab, grabFuel, grabGo, grabMain, grabRest, mergeOptions, hd, hm, h,
      mockLookup, pageKeyOf, mergeFieldOf, paramsKey, clearKeys, errMsgOf,
      objSet, objDelete, objGet, preEntry, errEntry]

/-- C6 witness: a concrete failing call appends its failure entry. -/
theorem C6_witness :
    (grab rejState "/x" (some { params := [] })).1.log =
      errEntry "x" [] "network down" ::
        preEntry "x" (stringifyObj ([] : JObj)) 0 0 :: [] :=
  C6_amended_failure_appends_log_entry rejState "/x" [] rfl rfl rfl

/-- Setting the cursor key to `undefined` before serializing is the same
as serializing with the cursor key filtered out, provided the object has
no duplicate keys (JavaScript objects never do). -/
theorem stringifyFields_objSet_undef (ck : String) :
    ∀ (p : JObj), (p.map Prod.fst).Nodup →
      stringifyFields (objSet p ck JVal.undef) =
        stringifyFields (p.filter (fun kv => kv.1 != ck))
  | [], _ => by simp [objSet, stringifyFields, stringifyVal]
  | (k, v) :: rest, hnd => by
    have hnd0 : (k :: rest.map Prod.fst).Nodup := by simpa using hnd
    have hkmem : k ∉ rest.map Prod.fst := (List.nodup_cons.mp hnd0).1
    have hnd2 : (rest.map Prod.fst).Nodup := (List.nodup_cons.mp hnd0).2
    by_cases hk : k = ck
    · subst hk
      have hrest : rest.filter (fun kv => kv.1 != k) = rest := by
        rw [List.filter_eq_self]
        intro kv hkv
        have hne : kv.1 ≠ k := by
          intro heq
          exact hkmem (by simpa [← heq] using List.mem_map_of_mem Prod.fst hkv)
        simpa using hne
      simp [objSet, stringifyFields, stringifyVal, List.filter, hrest]
    · have hne : (k == ck) = false := by simpa using hk
      have hne' : (k != ck) = true := by simpa using hk
      have ih := stringifyFields_objSet_undef ck rest hnd2
      cases hv : stringifyVal v <;>
        simp [objSet, hne, stringifyFields, List.filter, hne', hv, ih]

/-- C7 (amended): the CallKey's serialized params exclude the pagination
cursor, and two calls whose non-cursor params are equal *as ordered
key-value lists* (same insertion order) derive the identical CallKey;
different insertion orders of the same map may differ (see the
counterexample theorem). -/
theorem C7_amended_cursor_excluded_order_stable (ck : String) (p1 p2 : JObj)
    (h1 : (p1.map Prod.fst).Nodup) (h2 : (p2.map Prod.fst).Nodup)
    (h : p1.filter (fun kv => kv.1 != ck) = p2.filter (fun kv => kv.1 != ck)) :
    paramsKey (some ck) p1 = paramsKey (some ck) p2 := by
  simp only [paramsKey, stringifyObj, stringifyVal]
  rw [stringifyFields_objSet_undef ck p1 h1, stringifyFields_objSet_undef ck p2 h2, h]

/-- C7 witness: a call carrying the cursor param and one without it share
the CallKey. -/
theorem C7_witness :
    paramsKey (some "page") [("a", JVal.num 1), ("page", JVal.num 7)] =
      paramsKey (some "page") [("a", JVal.num 1)] :=
  C7_amended_cursor_excluded_order_stable "page"
    [("a", JVal.num 1), ("page", JVal.num 7)] [("a", JVal.num 1)]
    (by decide) (by decide) rfl

/-- C8 (amended): for every plain call that reaches the transport, the
per-call abort handle is created before the transport invocation (the
`controllerCreated` event immediately precedes `transportCalled` in the
newest-first trace), and the signal handed to the transport is
`AbortSignal.timeout(timeout)` exactly when `cancelOngoingIfNew` is
false; when it is true, the new call's own controller signal is used and
no timeout is attached (see the counterexample theorem). -/
theorem C8_amended_abort_handle_and_signal_selection
    (st : GrabState) (path : String) (ps : JObj) (b : Bool) (t : Int)
    (hm : st.mock = []) (hd : st.defaults = none) :
    (((grab st path (some { cancelOngoingIfNew := some b, timeout := some t, params := ps })).1.trace)[0]? =
      some (Event.transportCalled
        (if b then Signal.ctrlSig st.nextId else Signal.timeoutSig t))) ∧
    (((grab st path (some { cancelOngoingIfNew := some b, timeout := some t, params := ps })).1.trace)[1]? =
      some (Event.controllerCreated st.nextId)) := by
  cases h : st.transport st.calls
  case ok v =>
    cases hmr : mergeResponse [] v none
    all_goals
      simp [grab, grabFuel, grabGo, grabMain, grabRest, grabFinish, mergeOptions,
        hd, hm, mockLookup, paramsKey, pageKeyOf, mergeFieldOf, clearKeys, h, hmr,
        objSet, objDelete, Bool.and_false]
  all_goals
    simp [grab, grabFuel, grabGo, grabMain, grabRest, grabFinish, mergeOptions,
      hd, hm, mockLookup, paramsKey, pageKeyOf, mergeFieldOf, clearKeys, h,
      Bool.and_false]

/-- C8 witness: with `cancelOngoingIfNew` false, the transport receives
the timeout signal right after the controller is created. -/
theorem C8_witness :
    (((grab coState "/t" (some { cancelOngoingIfNew := some false, timeout := some 30, params := [] })).1.trace)[0]? =
      some (Event.transportCalled (Signal.timeoutSig 30))) ∧
    (((grab coState "/t" (some { cancelOngoingIfNew := some false, timeout := some 30, params := [] })).1.trace)[1]? =
      some (Event.controllerCreated 0)) :=
  C8_amended_abort_handle_and_signal_selection coState "/t" [] false 30 rfl rfl

/-- Reading the only key of a singleton object. -/
theorem objGet_single (k : String) (v : JVal) : objGet [(k, v)] k = v := by
  simp [objGet, List.find?]

/-- The accumulate-field merge of one page: overwrite when the existing
array is empty (its `.length` is falsy), concatenate otherwise — both
equal to appending the page at the tail. -/
theorem mergeKeys_accum (mfk : String) (l p : List JVal) (c : JObj)
    (hc : objGet c mfk = JVal.arr l) :
    mergeKeys (some mfk) (JVal.obj [(mfk, JVal.arr p)]) [mfk] c =
      Except.ok (objSet c mfk (JVal.arr (l ++ p))) := by
  cases l <;> simp [mergeKeys, jsFieldGet, lengthTruthy, concatSpread, hc, objGet_single]

/-- State and container after `k + 1` paginated calls sharing one CallKey
and one container: the log head is the latest success entry over the
latest pre-request entry, the transport ran `k + 1` times, and the
container is `pagCont pages k`. -/
theorem pagSeq_state (pages : Nat → List JVal) (path : String) :
    ∀ k : Nat, ∃ rest tr,
      runSeq (pagState pages) path pagOpts [] (k + 1) =
      ({ log := succEntry (fixPath path "/api/").1 [("page", JVal.num 1)] (pagCont pages k) 0 ::
            preEntry (fixPath path "/api/").1 "\x7b\x7d" 0 k :: rest
         defaults := none
         mock := []
         now := 0
         transport := pagesTransport pages
         calls := k + 1
         nextId := k + 1
         trace := tr },
       pagCont pages k) := by
  intro k
  induction k with
  | zero =>
    refine ⟨[], [Event.transportCalled (Signal.timeoutSig 30), Event.controllerCreated 0], ?_⟩
    simp only [runSeq]
    simp [grab, grabFuel, grabGo, grabMain, grabRest, grabFinish, pagState,
      pagOpts, mergeOptions, paramsKey, pageKeyOf, mergeFieldOf, mockLookup,
      mergeResponse, mergeKeys, jsObjectKeys, jsFieldGet, objSet, objGet, objDelete,
      clearKeys, lengthTruthy, concatSpread, isObjectType, pagesTransport, jsOrV,
      jsTruthy, jsAddOne, succEntry, preEntry, pagCont, flatPages]
    decide
  | succ k ih =>
    obtain ⟨rest, tr, hk⟩ := ih
    refine ⟨succEntry (fixPath path "/api/").1 [("page", JVal.num 1)] (pagCont pages k) 0 ::
        objDelete (objSet (preEntry (fixPath path "/api/").1 "\x7b\x7d" 0 k)
          "currentPage" (JVal.num 1)) "controller" :: rest,
      Event.transportCalled (Signal.timeoutSig 30) :: Event.controllerCreated (k + 1) :: tr, ?_⟩
    have step : runSeq (pagState pages) path pagOpts [] (k + 1 + 1) =
        (let r := runSeq (pagState pages) path pagOpts [] (k + 1)
         let r2 := grab r.1 path (some { pagOpts with response := some r.2 })
         (r2.1, r2.2.container)) := rfl
    rw [step]
    simp only [hk]
    have hs1 : stringifyObj [("page", JVal.undef)] = "\x7b\x7d" := by decide
    have hs2 : stringifyObj [("page", JVal.num 1), ("paginateKey", JVal.undef)] =
        "\x7b\"page\":1\x7d" := by decide
    simp [hs1, hs2, grab, grabFuel, grabGo, grabMain, grabRest, grabFinish,
      pagOpts, mergeOptions, paramsKey, pageKeyOf, mergeFieldOf, mockLookup,
      mergeResponse, mergeKeys_accum, jsObjectKeys, jsFieldGet, objSet, objGet, objDelete,
      clearKeys, lengthTruthy, concatSpread, isObjectType, pagesTransport, jsOrV,
      jsTruthy, jsAddOne, succEntry, preEntry, pagCont, flatPages, entryMatches,
      looseEqStr, updateIdx, List.findIdx?]

/-- The accumulated length is the sum of the page sizes. -/
theorem flatPages_length (pages : Nat → List JVal) :
    ∀ k, (flatPages pages k).length =
      ((List.range k).map (fun j => (pages j).length)).sum := by
  intro k
  induction k with
  | zero => simp [flatPages]
  | succ k ih => simp [flatPages, List.range_succ, ih]

/-- C9: for every sequence of paginated calls sharing one CallKey and one
response container, after call `k` (k ≥ 1) the accumulate-field equals
the concatenation of the arrays returned by calls 1 through `k` in call
order (old items first, each new page appended at the tail), and its
length is the sum of the page sizes of calls 1 through `k`. -/
theorem C9_pagination_accumulation (pages : Nat → List JVal) (path : String) (k : Nat)
    (hk : 0 < k) :
    objGet (runSeq (pagState pages) path pagOpts [] k).2 "items" =
      JVal.arr (flatPages pages k) ∧
    (flatPages pages k).length =
      ((List.range k).map (fun j => (pages j).length)).sum := by
  constructor
  · cases k with
    | zero => exact absurd hk (by decide)
    | succ j =>
      obtain ⟨rest, tr, h⟩ := pagSeq_state pages path j
      rw [h]
      simp [pagCont, objGet, List.find?]
  · exact flatPages_length pages k

/-- C9 witness: two calls accumulate `[0] ++ [1]`. -/
theorem C9_witness :
    0 < 2 ∧
    (objGet (runSeq (pagState witPages) "/x" pagOpts [] 2).2 "items" =
        JVal.arr (flatPages witPages 2) ∧
      (flatPages witPages 2).length =
        ((List.range 2).map (fun j => (witPages j).length)).sum) :=
  ⟨by decide, C9_pagination_accumulation witPages "/x" 2 (by decide)⟩
